import Mathlib

/-!
Verification development for the agent-mail coordination server
(src/docker/agent-mail/server.py).

The Python handlers are shallowly embedded as pure Lean functions over an
explicit database state.  Conventions used throughout:

* SQLite TEXT timestamps (ISO-8601 strings produced by `now_iso()`) are
  modelled as `Nat`: the produced strings compare lexicographically in the
  same order as the instants they denote, so `<` on `Nat` is a faithful
  abstraction of the string comparisons the SQL performs.  Each handler
  receives the current instant as an explicit `now` argument (the Python
  code may call `now_iso()` more than once inside one handler; the calls
  happen within the same request and are modelled as one instant).
* Python falsy-checks on required arguments (`if not x`) are modelled by
  `= ""` for strings, `= []` for lists and `= 0` for integer ids, which is
  exactly the set of falsy values each argument can take.
* Each handler runs inside one transaction (`get_db` commits on success and
  rolls back on an exception), so a handler is a function
  `Args → DB → Nat → Except Err (Result × DB)`: the error case discards all
  writes.
* SQLite's default `LIKE` is case-insensitive on ASCII letters and treats
  `%` as any-substring and `_` as any-single-character; `sqlLike` models
  this.  SQL `=` on TEXT is exact binary equality, modelled by `==`.
-/

namespace AgentMail

/-- ASCII lower-casing as used by SQLite's default `LIKE` comparison. -/
def lowerAscii (c : Char) : Char :=
  if 'A' ≤ c ∧ c ≤ 'Z' then Char.ofNat (c.toNat + 32) else c

/-- Matcher for SQLite `LIKE`: first argument is the pattern (in `.data`
form), second the candidate string.  `%` matches any substring, `_` any
single character, letters compare ASCII-case-insensitively. -/
def likeMatch : List Char → List Char → Bool
  | [], s => s.isEmpty
  | '%' :: ps, s => s.tails.any (fun t => likeMatch ps t)
  | '_' :: ps, s =>
    match s with
    | [] => false
    | _ :: t => likeMatch ps t
  | c :: ps, s =>
    match s with
    | [] => false
    | d :: t => (lowerAscii c == lowerAscii d) && likeMatch ps t

/-- `s LIKE pat` in SQLite. -/
def sqlLike (s pat : String) : Bool :=
  likeMatch pat.data s.data

/-- Python `path.replace("*", "%")`. -/
def starToPercent (s : String) : String :=
  String.mk (s.data.map (fun c => if c = '*' then '%' else c))

/-- The conflict condition of the SQL query in `tool_file_reservation_paths`:
`fr.path_pattern = ?1 OR fr.path_pattern LIKE ?2 OR ?2 LIKE fr.path_pattern`
with `?1 = path` and `?2 = path.replace("*", "%")`, where `stored` is the
`path_pattern` column of the existing reservation row. -/
def reservationConflict (stored path : String) : Bool :=
  stored == path
    || sqlLike stored (starToPercent path)
    || sqlLike (starToPercent path) stored

/-- Modelled from the spec, section 4.3: glob matching with `*` as an
any-substring wildcard (first argument is the pattern).  Used only to state
the spec-side overlap notion that the claims refer to. -/
def specGlobMatch : List Char → List Char → Bool
  | [], s => s.isEmpty
  | '*' :: ps, s => s.tails.any (fun t => specGlobMatch ps t)
  | c :: ps, s =>
    match s with
    | [] => false
    | d :: t => (c == d) && specGlobMatch ps t

/-- Modelled from the spec, section 4.3: two path patterns overlap iff they
are equal, or either matches the other as a glob. -/
def specOverlap (a b : String) : Bool :=
  a == b || specGlobMatch a.data b.data || specGlobMatch b.data a.data

/-! ## Data model (the SQLite tables) -/

structure Project where
  id : Nat
  slug : String
  human_key : String
  created_at : Nat
  deriving DecidableEq, Repr

structure Agent where
  id : Nat
  name : String
  program : String
  model : String
  task_description : String
  inception_ts : Nat
  last_active_ts : Nat
  project_id : Nat
  deriving DecidableEq, Repr

structure Message where
  id : Nat
  project_id : Nat
  sender_id : Nat
  subject : String
  body_md : String
  thread_id : Option String
  importance : String
  ack_required : Bool
  kind : String
  created_ts : Nat
  deriving DecidableEq, Repr

/-- One row of `message_recipients` (the delivery record). -/
structure Recipient where
  message_id : Nat
  agent_id : Nat
  read_at : Option Nat
  acked_at : Option Nat
  deriving DecidableEq, Repr

structure FileReservation where
  id : Nat
  project_id : Nat
  agent_id : Nat
  path_pattern : String
  exclusive : Bool
  reason : String
  created_ts : Nat
  expires_ts : Nat
  deriving DecidableEq, Repr

/-- The database: each table as a list of rows in rowid (insertion) order,
plus the AUTOINCREMENT counters. -/
structure DB where
  projects : List Project
  agents : List Agent
  messages : List Message
  recipients : List Recipient
  reservations : List FileReservation
  next_project_id : Nat
  next_agent_id : Nat
  next_message_id : Nat
  next_reservation_id : Nat
  deriving DecidableEq, Repr

/-- `SELECT * FROM projects WHERE human_key = ?` (`fetchone`). -/
def findProject (db : DB) (key : String) : Option Project :=
  db.projects.find? (fun p => p.human_key == key)

/-- `SELECT * FROM agents WHERE name = ? AND project_id = ?` (`fetchone`). -/
def findAgent (db : DB) (pid : Nat) (name : String) : Option Agent :=
  db.agents.find? (fun a => a.name == name && a.project_id == pid)

/-- `JOIN agents a ON <x>.agent_id = a.id`. -/
def findAgentById (db : DB) (aid : Nat) : Option Agent :=
  db.agents.find? (fun a => a.id == aid)

/-- Errors a handler can raise.  `valueError` is Python's `ValueError`
(mapped to JSON-RPC code -32602 by `mcp_endpoint`); `integrityError` is
sqlite3's `IntegrityError` on a uniqueness violation (caught by the generic
`except Exception` handler, code -32000). -/
inductive Err where
  | valueError (msg : String)
  | integrityError (msg : String)
  deriving DecidableEq, Repr

/-- The error surfaced to the caller by `mcp_endpoint`: the JSON-RPC error
code together with the message text (`str(e)`). -/
def surfaceErr : Err → Int × String
  | .valueError m => (-32602, m)
  | .integrityError m => (-32000, m)

instance {ε α : Type} [DecidableEq ε] [DecidableEq α] : DecidableEq (Except ε α) :=
  fun a b =>
    match a, b with
    | .ok x, .ok y =>
      if h : x = y then isTrue (by rw [h])
      else isFalse (fun hh => h (by injection hh))
    | .error x, .error y =>
      if h : x = y then isTrue (by rw [h])
      else isFalse (fun hh => h (by injection hh))
    | .ok _, .error _ => isFalse (fun hh => Except.noConfusion hh)
    | .error _, .ok _ => isFalse (fun hh => Except.noConfusion hh)

/-- Stable insertion sort, modelling the SQL `ORDER BY` clauses (SQLite does
not promise a particular order among ties; the claims below never depend on
tie order). -/
def insertSorted {α : Type} (le : α → α → Bool) (x : α) : List α → List α
  | [] => [x]
  | y :: ys => if le x y then x :: y :: ys else y :: insertSorted le x ys

def sortBy {α : Type} (le : α → α → Bool) : List α → List α
  | [] => []
  | x :: xs => insertSorted le x (sortBy le xs)

/-! ## Tool handlers -/

/-- `generate_slug`: path separators and spaces become `_`, other
non-alphanumeric characters are dropped, lower-cased, truncated to 64.
(Python's `isalnum`/`lower` are Unicode-aware; the claims only exercise the
ASCII behaviour, which `Char.isAlphanum`/`Char.toLower` model.) -/
def generate_slug (human_key : String) : String :=
  let s1 := human_key.data.map (fun c => if c = '/' ∨ c = '\\' ∨ c = ' ' then '_' else c)
  let s2 := s1.filter (fun c => c.isAlphanum || c == '_')
  String.mk ((s2.map Char.toLower).take 64)

structure EnsureProjectArgs where
  human_key : String
  deriving DecidableEq, Repr

/-- `tool_ensure_project`.  The `INSERT` can violate the `UNIQUE` constraint
on `slug` when a different `human_key` produces an already-taken slug. -/
def tool_ensure_project (args : EnsureProjectArgs) (db : DB) (now : Nat) :
    Except Err (Project × DB) :=
  if args.human_key = "" then .error (.valueError "human_key is required")
  else
    let slug := generate_slug args.human_key
    match findProject db args.human_key with
    | some row => .ok (row, db)
    | none =>
      if db.projects.any (fun p => p.slug == slug) then
        .error (.integrityError "UNIQUE constraint failed: projects.slug")
      else
        let row : Project := ⟨db.next_project_id, slug, args.human_key, now⟩
        .ok (row, { db with
          projects := db.projects ++ [row],
          next_project_id := db.next_project_id + 1 })

structure RegisterAgentArgs where
  project_key : String
  program : String
  model : String
  /-- `""` models a missing/falsy `name` (triggers generation). -/
  name : String
  task_description : String
  deriving DecidableEq, Repr

/-- `tool_register_agent`.  The random `generate_agent_name()` stream is
injected as `gen` (the i-th candidate), and the uuid-suffixed fallback name
built after 100 failed attempts as `fallbackName`. -/
def tool_register_agent (gen : Nat → String) (fallbackName : String)
    (args : RegisterAgentArgs) (db : DB) (now : Nat) : Except Err (Agent × DB) :=
  if args.project_key = "" then .error (.valueError "project_key is required")
  else match findProject db args.project_key with
  | none => .error (.valueError ("Project not found: " ++ args.project_key))
  | some project =>
    let project_id := project.id
    let name :=
      if args.name = "" then
        match (List.range 100).find? (fun i => (findAgent db project_id (gen i)).isNone) with
        | some i => gen i
        | none => fallbackName
      else args.name
    match findAgent db project_id name with
    | some existing =>
      -- the row is fetched before the `last_active_ts` update, so the
      -- returned record carries the old timestamp
      let db2 := { db with agents := db.agents.map (fun a =>
        if a.id == existing.id then { a with last_active_ts := now } else a) }
      .ok (existing, db2)
    | none =>
      let row : Agent :=
        ⟨db.next_agent_id, name, args.program, args.model, args.task_description,
          now, now, project_id⟩
      .ok (row, { db with
        agents := db.agents ++ [row],
        next_agent_id := db.next_agent_id + 1 })

structure SendMessageArgs where
  project_key : String
  sender_name : String
  «to» : List String
  subject : String
  body_md : String
  thread_id : Option String
  importance : String
  ack_required : Bool
  deriving DecidableEq, Repr

structure SendMessageResult where
  id : Nat
  subject : String
  sent_to : List String
  created_ts : Nat
  deriving DecidableEq, Repr

/-- The recipient loop of `tool_send_message`: unresolved names are skipped,
resolved ones get a `message_recipients` row; inserting a duplicate
`(message_id, agent_id)` key violates the table's primary key and raises
(sqlite3.IntegrityError), aborting the whole transaction. -/
def insertRecipients (mid pid : Nat) (db : DB) : List String → Except Err DB
  | [] => .ok db
  | rname :: rest =>
    match findAgent db pid rname with
    | none => insertRecipients mid pid db rest
    | some r =>
      if db.recipients.any (fun rec => rec.message_id == mid && rec.agent_id == r.id) then
        .error (.integrityError
          "UNIQUE constraint failed: message_recipients.message_id, message_recipients.agent_id")
      else
        insertRecipients mid pid
          { db with recipients := db.recipients ++ [⟨mid, r.id, none, none⟩] } rest

/-- The delivery records created for a recipient list: one per resolved
name, in request order. -/
def recipientRows (db : DB) (pid mid : Nat) (names : List String) : List Recipient :=
  (names.filterMap (fun n2 => findAgent db pid n2)).map (fun a => ⟨mid, a.id, none, none⟩)

/-- `tool_send_message`. -/
def tool_send_message (args : SendMessageArgs) (db : DB) (now : Nat) :
    Except Err (SendMessageResult × DB) :=
  if args.project_key = "" then .error (.valueError "project_key is required")
  else if args.sender_name = "" then .error (.valueError "sender_name is required")
  else if args.«to» = [] then .error (.valueError "to is required (list of recipient names)")
  else match findProject db args.project_key with
  | none => .error (.valueError ("Project not found: " ++ args.project_key))
  | some project =>
    match findAgent db project.id args.sender_name with
    | none => .error (.valueError ("Sender agent not found: " ++ args.sender_name))
    | some sender =>
      let mid := db.next_message_id
      let msg : Message :=
        ⟨mid, project.id, sender.id, args.subject, args.body_md, args.thread_id,
          args.importance, args.ack_required, "message", now⟩
      let db1 := { db with messages := db.messages ++ [msg], next_message_id := mid + 1 }
      match insertRecipients mid project.id db1 args.«to» with
      | .error e => .error e
      | .ok db2 => .ok (⟨mid, args.subject, args.«to», now⟩, db2)

structure FetchInboxArgs where
  project_key : String
  agent_name : String
  limit : Nat
  include_bodies : Bool
  urgent_only : Bool
  /-- `0` models a missing/falsy `since_ts` (no lower-bound filter). -/
  since_ts : Nat
  deriving DecidableEq, Repr

/-- One inbox entry; `from_name` is the dict key `"from"`, `body_md` is
present only when `include_bodies` was requested. -/
structure InboxMessage where
  id : Nat
  subject : String
  from_name : String
  created_ts : Nat
  importance : String
  ack_required : Bool
  thread_id : Option String
  kind : String
  body_md : Option String
  deriving DecidableEq, Repr

/-- `tool_fetch_inbox`. -/
def tool_fetch_inbox (args : FetchInboxArgs) (db : DB) (_now : Nat) :
    Except Err (List InboxMessage × DB) :=
  if args.project_key = "" then .error (.valueError "project_key is required")
  else if args.agent_name = "" then .error (.valueError "agent_name is required")
  else match findProject db args.project_key with
  | none => .error (.valueError ("Project not found: " ++ args.project_key))
  | some project =>
    match findAgent db project.id args.agent_name with
    | none => .error (.valueError ("Agent not found: " ++ args.agent_name))
    | some agent =>
      let base := db.messages.filter (fun m =>
        db.recipients.any (fun r => r.message_id == m.id && r.agent_id == agent.id))
      let base2 := if args.urgent_only then base.filter (fun m => m.importance == "urgent") else base
      let base3 := if args.since_ts ≠ 0 then base2.filter (fun m => args.since_ts < m.created_ts) else base2
      let joined := base3.filterMap (fun m =>
        (findAgentById db m.sender_id).map (fun a => (m, a.name)))
      let sorted := sortBy (fun a b => b.1.created_ts ≤ a.1.created_ts) joined
      let limited := sorted.take args.limit
      .ok (limited.map (fun x =>
        ⟨x.1.id, x.1.subject, x.2, x.1.created_ts, x.1.importance, x.1.ack_required,
          x.1.thread_id, x.1.kind, if args.include_bodies then some x.1.body_md else none⟩), db)

structure MarkReadArgs where
  project_key : String
  agent_name : String
  /-- `0` models a missing/falsy `message_id` (Python `not all([...])`). -/
  message_id : Nat
  deriving DecidableEq, Repr

structure MarkReadResult where
  message_id : Nat
  read_at : Nat
  deriving DecidableEq, Repr

/-- The row transformation of the `UPDATE message_recipients SET read_at`
statement: rows matching `(message_id, agent_id)` get `read_at = now`. -/
def markReadUpdate (mid aid t : Nat) (r : Recipient) : Recipient :=
  if r.message_id == mid && r.agent_id == aid then { r with read_at := some t } else r

/-- The row transformation of the `UPDATE message_recipients SET acked_at`
statement. -/
def ackUpdate (mid aid t : Nat) (r : Recipient) : Recipient :=
  if r.message_id == mid && r.agent_id == aid then { r with acked_at := some t } else r

/-- `tool_mark_message_read`: an unconditional `UPDATE` on the delivery
record of `(message_id, caller)`; updating zero rows is not an error. -/
def tool_mark_message_read (args : MarkReadArgs) (db : DB) (now : Nat) :
    Except Err (MarkReadResult × DB) :=
  if args.project_key = "" ∨ args.agent_name = "" ∨ args.message_id = 0 then
    .error (.valueError "project_key, agent_name, and message_id are required")
  else match findProject db args.project_key with
  | none => .error (.valueError ("Project not found: " ++ args.project_key))
  | some project =>
    match findAgent db project.id args.agent_name with
    | none => .error (.valueError ("Agent not found: " ++ args.agent_name))
    | some agent =>
      let db2 :=
        { db with recipients := db.recipients.map (markReadUpdate args.message_id agent.id now) }
      .ok (⟨args.message_id, now⟩, db2)

structure AckResult where
  message_id : Nat
  acked_at : Nat
  deriving DecidableEq, Repr

/-- `tool_acknowledge_message`: identical to `tool_mark_message_read` but
for the `acked_at` column (it takes the same three arguments). -/
def tool_acknowledge_message (args : MarkReadArgs) (db : DB) (now : Nat) :
    Except Err (AckResult × DB) :=
  if args.project_key = "" ∨ args.agent_name = "" ∨ args.message_id = 0 then
    .error (.valueError "project_key, agent_name, and message_id are required")
  else match findProject db args.project_key with
  | none => .error (.valueError ("Project not found: " ++ args.project_key))
  | some project =>
    match findAgent db project.id args.agent_name with
    | none => .error (.valueError ("Agent not found: " ++ args.agent_name))
    | some agent =>
      let db2 :=
        { db with recipients := db.recipients.map (ackUpdate args.message_id agent.id now) }
      .ok (⟨args.message_id, now⟩, db2)

structure SummarizeThreadArgs where
  project_key : String
  /-- `""` models a missing/falsy `thread_id`. -/
  thread_id : String
  include_examples : Bool
  deriving DecidableEq, Repr

structure ThreadExample where
  id : Nat
  subject : String
  from_name : String
  body_md : String
  deriving DecidableEq, Repr

structure ThreadSummary where
  thread_id : String
  participants : List String
  key_points : List String
  action_items : List String
  total_messages : Nat
  examples : Option (List ThreadExample)
  deriving DecidableEq, Repr

/-- `tool_summarize_thread`.  Python's `list(set(...))` for participants has
nondeterministic order; the model keeps first occurrences
(`List.eraseDups`), which is one admissible order. -/
def tool_summarize_thread (args : SummarizeThreadArgs) (db : DB) (_now : Nat) :
    Except Err (ThreadSummary × DB) :=
  if args.project_key = "" then .error (.valueError "project_key is required")
  else if args.thread_id = "" then .error (.valueError "thread_id is required")
  else match findProject db args.project_key with
  | none => .error (.valueError ("Project not found: " ++ args.project_key))
  | some project =>
    let rows := sortBy (fun a b => a.1.created_ts ≤ b.1.created_ts)
      ((db.messages.filter (fun m =>
          m.thread_id == some args.thread_id && m.project_id == project.id)).filterMap
        (fun m => (findAgentById db m.sender_id).map (fun a => (m, a.name))))
    let participants := (rows.map (fun x => x.2)).eraseDups
    let key_points := (rows.take 5).map (fun x => x.1.subject)
    let action_items := (rows.filter (fun x => x.1.importance == "urgent")).map (fun x => x.1.subject)
    let examples :=
      if args.include_examples && !rows.isEmpty then
        some ((rows.take 3).map (fun x => ⟨x.1.id, x.1.subject, x.2, x.1.body_md⟩))
      else none
    .ok (⟨args.thread_id, participants, key_points, action_items, rows.length, examples⟩, db)

structure ReservePathsArgs where
  project_key : String
  agent_name : String
  paths : List String
  ttl_seconds : Nat
  exclusive : Bool
  reason : String
  deriving DecidableEq, Repr

structure GrantedEntry where
  id : Nat
  path_pattern : String
  exclusive : Bool
  reason : String
  expires_ts : Nat
  deriving DecidableEq, Repr

structure ConflictEntry where
  path : String
  holders : List String
  deriving DecidableEq, Repr

structure ReserveResult where
  granted : List GrantedEntry
  conflicts : List ConflictEntry
  deriving DecidableEq, Repr

/-- The conflict query of `tool_file_reservation_paths`: live is implicit
(the sweep ran first), so the `WHERE` clause keeps same-project, other-agent,
exclusive rows whose pattern satisfies `reservationConflict`; the `JOIN` with
`agents` supplies the holder name (dropping rows with no matching agent). -/
def conflictingRows (resvs : List FileReservation) (agents : List Agent)
    (pid aid : Nat) (path : String) : List (FileReservation × Agent) :=
  (resvs.filter (fun r =>
      r.project_id == pid && r.agent_id != aid && r.exclusive
        && reservationConflict r.path_pattern path)).filterMap
    (fun r => (agents.find? (fun a => a.id == r.agent_id)).map (fun a => (r, a)))

/-- The per-path loop of `tool_file_reservation_paths`, threading the
`file_reservations` table and the AUTOINCREMENT counter. -/
def reserveLoop (agents : List Agent) (pid aid : Nat) (excl : Bool) (reason : String)
    (now expires : Nat) :
    List String → List FileReservation → Nat →
      List GrantedEntry × List ConflictEntry × List FileReservation × Nat
  | [], resvs, nid => ([], [], resvs, nid)
  | path :: rest, resvs, nid =>
    let cs := conflictingRows resvs agents pid aid path
    if cs.isEmpty then
      let row : FileReservation := ⟨nid, pid, aid, path, excl, reason, now, expires⟩
      let out := reserveLoop agents pid aid excl reason now expires rest (resvs ++ [row]) (nid + 1)
      (⟨nid, path, excl, reason, expires⟩ :: out.1, out.2.1, out.2.2)
    else
      let out := reserveLoop agents pid aid excl reason now expires rest resvs nid
      (out.1, ⟨path, cs.map (fun x => x.2.name)⟩ :: out.2.1, out.2.2)

/-- The expiry sweep:
`DELETE FROM file_reservations WHERE expires_ts < now` (no project filter). -/
def sweptReservations (db : DB) (now : Nat) : List FileReservation :=
  db.reservations.filter (fun r => !(decide (r.expires_ts < now)))

/-- `tool_file_reservation_paths`: validation, resolution, the expiry sweep,
then the per-path conflict/grant loop. -/
def tool_file_reservation_paths (args : ReservePathsArgs) (db : DB) (now : Nat) :
    Except Err (ReserveResult × DB) :=
  if args.project_key = "" then .error (.valueError "project_key is required")
  else if args.agent_name = "" then .error (.valueError "agent_name is required")
  else if args.paths = [] then .error (.valueError "paths is required (list of path patterns)")
  else match findProject db args.project_key with
  | none => .error (.valueError ("Project not found: " ++ args.project_key))
  | some project =>
    match findAgent db project.id args.agent_name with
    | none => .error (.valueError ("Agent not found: " ++ args.agent_name))
    | some agent =>
      let expires := now + args.ttl_seconds
      let out := reserveLoop db.agents project.id agent.id args.exclusive args.reason
        now expires args.paths (sweptReservations db now) db.next_reservation_id
      .ok (⟨out.1, out.2.1⟩,
        { db with reservations := out.2.2.1, next_reservation_id := out.2.2.2 })

structure ReleaseArgs where
  project_key : String
  agent_name : String
  /-- `[]` models a missing/falsy `paths`. -/
  paths : List String
  /-- `[]` models a missing/falsy `file_reservation_ids`. -/
  file_reservation_ids : List Nat
  deriving DecidableEq, Repr

structure ReleaseResult where
  released : Nat
  released_at : Nat
  deriving DecidableEq, Repr

/-- The `DELETE` condition picked by `tool_release_file_reservations`:
by ids when `file_reservation_ids` is truthy, else by exact path patterns
when `paths` is truthy, else everything — always scoped to the caller. -/
def releaseCond (args : ReleaseArgs) (aid : Nat) (r : FileReservation) : Bool :=
  if args.file_reservation_ids ≠ [] then
    args.file_reservation_ids.contains r.id && r.agent_id == aid
  else if args.paths ≠ [] then
    args.paths.contains r.path_pattern && r.agent_id == aid
  else
    r.agent_id == aid

/-- `tool_release_file_reservations`; `released` is the cursor rowcount. -/
def tool_release_file_reservations (args : ReleaseArgs) (db : DB) (now : Nat) :
    Except Err (ReleaseResult × DB) :=
  if args.project_key = "" then .error (.valueError "project_key is required")
  else if args.agent_name = "" then .error (.valueError "agent_name is required")
  else match findProject db args.project_key with
  | none => .error (.valueError ("Project not found: " ++ args.project_key))
  | some project =>
    match findAgent db project.id args.agent_name with
    | none => .error (.valueError ("Agent not found: " ++ args.agent_name))
    | some agent =>
      let remaining := db.reservations.filter (fun r => !(releaseCond args agent.id r))
      .ok (⟨(db.reservations.filter (releaseCond args agent.id)).length, now⟩,
        { db with reservations := remaining })

structure SearchArgs where
  project_key : String
  query : String
  limit : Nat
  deriving DecidableEq, Repr

structure SearchResultMsg where
  id : Nat
  subject : String
  from_name : String
  created_ts : Nat
  importance : String
  thread_id : Option String
  deriving DecidableEq, Repr

/-- `tool_search_messages`.  The FTS5 index is external state; `ftsRank`
injects it as the rank-ordered rowids matching a query. -/
def tool_search_messages (ftsRank : String → List Nat) (args : SearchArgs)
    (db : DB) (_now : Nat) : Except Err (List SearchResultMsg × DB) :=
  if args.project_key = "" then .error (.valueError "project_key is required")
  else if args.query = "" then .error (.valueError "query is required")
  else match findProject db args.project_key with
  | none => .error (.valueError ("Project not found: " ++ args.project_key))
  | some project =>
    let rows := ((ftsRank args.query).filterMap (fun mid =>
        db.messages.find? (fun m => m.id == mid))).filter
      (fun m => m.project_id == project.id)
    let joined := rows.filterMap (fun m =>
      (findAgentById db m.sender_id).map (fun a => (m, a.name)))
    .ok ((joined.take args.limit).map (fun x =>
      ⟨x.1.id, x.1.subject, x.2, x.1.created_ts, x.1.importance, x.1.thread_id⟩), db)

/-! ## Definitions used to state the claims -/

/-- Modelled from the spec (section 8, property 3): the exclusion invariant is
violated at instant `now` when two live (`now < expires_ts`) exclusive
reservations of different agents in the same project have overlapping
patterns per the spec's section 4.3 overlap definition. -/
def exclusionInvariantViolated (db : DB) (now : Nat) : Bool :=
  db.reservations.any (fun r1 => db.reservations.any (fun r2 =>
    r1.project_id == r2.project_id && r1.agent_id != r2.agent_id
      && r1.exclusive && r2.exclusive
      && decide (now < r1.expires_ts) && decide (now < r2.expires_ts)
      && specOverlap r1.path_pattern r2.path_pattern))

/-- The conflict entries a reservation request would produce if every path
were checked independently against one fixed store (the post-sweep store):
used to state per-path independence of `tool_file_reservation_paths`. -/
def independentConflicts (resvs : List FileReservation) (agents : List Agent)
    (pid aid : Nat) (paths : List String) : List ConflictEntry :=
  paths.filterMap (fun p =>
    if (conflictingRows resvs agents pid aid p).isEmpty then none
    else some ⟨p, (conflictingRows resvs agents pid aid p).map (fun x => x.2.name)⟩)

/-- The requested paths that have no conflicting row in a fixed store. -/
def grantablePaths (resvs : List FileReservation) (agents : List Agent)
    (pid aid : Nat) (paths : List String) : List String :=
  paths.filter (fun p => (conflictingRows resvs agents pid aid p).isEmpty)

/-- Every message a missing/empty required argument can produce (one per
`raise ValueError("... required")` site in the handlers). -/
def validationMsgs : List String :=
  ["human_key is required",
   "project_key is required",
   "sender_name is required",
   "to is required (list of recipient names)",
   "agent_name is required",
   "project_key, agent_name, and message_id are required",
   "thread_id is required",
   "paths is required (list of path patterns)",
   "query is required"]

/-- The shape of every message an unresolved project or agent key produces. -/
def isNotFoundMsg (m : String) : Prop :=
  (∃ k, m = "Project not found: " ++ k)
    ∨ (∃ k, m = "Agent not found: " ++ k)
    ∨ (∃ k, m = "Sender agent not found: " ++ k)

/-! ## Concrete fixtures used by the closed theorems and witnesses -/

def projectP : Project := ⟨1, "proj", "proj", 0⟩

def agentA : Agent := ⟨1, "A", "p", "m", "", 0, 0, 1⟩

def agentB : Agent := ⟨2, "B", "p", "m", "", 0, 0, 1⟩

/-- One project with two registered agents and no other rows. -/
def baseDB : DB := ⟨[projectP], [agentA, agentB], [], [], [], 2, 3, 1, 1⟩

def argsGlobA : ReservePathsArgs := ⟨"proj", "A", ["src/*"], 100, true, ""⟩

def argsExactB : ReservePathsArgs := ⟨"proj", "B", ["src/foo.ts"], 100, true, ""⟩

/-- Agent A holds a live exclusive reservation on the glob `src/*`. -/
def dbHoldGlob : DB :=
  { baseDB with
    reservations := [⟨1, 1, 1, "src/*", true, "", 0, 100⟩],
    next_reservation_id := 2 }

/-- State after `argsGlobA` is granted on `baseDB` at instant 0. -/
def dbAfterGlobA : DB :=
  { baseDB with
    reservations := [⟨1, 1, 1, "src/*", true, "", 0, 100⟩],
    next_reservation_id := 2 }

/-- State after `argsExactB` is additionally granted at instant 0: both
overlapping exclusive reservations coexist. -/
def dbAfterBoth : DB :=
  { baseDB with
    reservations :=
      [⟨1, 1, 1, "src/*", true, "", 0, 100⟩,
       ⟨2, 1, 2, "src/foo.ts", true, "", 0, 100⟩],
    next_reservation_id := 3 }

/-- State after B's request for exact `src/foo.ts` is granted on
`dbHoldGlob` at instant 10 (the buggy non-conflict). -/
def dbGlobPlusExact : DB :=
  { baseDB with
    reservations :=
      [⟨1, 1, 1, "src/*", true, "", 0, 100⟩,
       ⟨2, 1, 2, "src/foo.ts", true, "", 10, 3610⟩],
    next_reservation_id := 3 }

/-- Agent A holds a live exclusive reservation on the exact path `src/foo.ts`. -/
def dbHoldExact : DB :=
  { baseDB with
    reservations := [⟨1, 1, 1, "src/foo.ts", true, "", 0, 100⟩],
    next_reservation_id := 2 }

/-- Agent A holds a reservation on `src/a.ts` that expired at instant 5. -/
def dbExpired : DB :=
  { baseDB with
    reservations := [⟨1, 1, 1, "src/a.ts", true, "", 0, 5⟩],
    next_reservation_id := 2 }

/-- Agent A holds a live exclusive reservation on `src/a.ts` (the spec's
partial-grant scenario). -/
def dbHoldA : DB :=
  { baseDB with
    reservations := [⟨1, 1, 1, "src/a.ts", true, "", 0, 100⟩],
    next_reservation_id := 2 }

/-- A holds reservations 1 (`a`) and 2 (`b`); B holds reservation 3 (`c`). -/
def dbRelease : DB :=
  { baseDB with
    reservations :=
      [⟨1, 1, 1, "a", true, "", 0, 100⟩,
       ⟨2, 1, 1, "b", true, "", 0, 100⟩,
       ⟨3, 1, 2, "c", true, "", 0, 100⟩],
    next_reservation_id := 4 }

def alice : Agent := ⟨1, "Alice", "p", "m", "", 0, 0, 1⟩

def bob : Agent := ⟨2, "Bob", "p", "m", "", 0, 0, 1⟩

/-- One project with agents Alice and Bob and no messages yet. -/
def mailDB : DB := ⟨[projectP], [alice, bob], [], [], [], 2, 3, 1, 1⟩

def argsGhostSend : SendMessageArgs :=
  ⟨"proj", "Bob", ["Alice", "Ghost"], "hi", "", none, "normal", false⟩

def argsDupSend : SendMessageArgs :=
  ⟨"proj", "Bob", ["Alice", "Alice"], "hi", "", none, "normal", false⟩

/-- State after `argsGhostSend` succeeds on `mailDB` at instant 7: the
message exists, only Alice has a delivery record. -/
def dbGhostAfter : DB :=
  { mailDB with
    messages := [⟨1, 1, 2, "hi", "", none, "normal", false, "message", 7⟩],
    recipients := [⟨1, 1, none, none⟩],
    next_message_id := 2 }

/-- Bob has sent message 1 to Alice; her delivery record is unread. -/
def readDB : DB :=
  { mailDB with
    messages := [⟨1, 1, 2, "s", "", none, "normal", false, "message", 0⟩],
    recipients := [⟨1, 1, none, none⟩],
    next_message_id := 2 }

/-! ## Helper lemmas about the reservation loop -/

/-- Rows held by the requesting agent never show up in the conflict query
(`fr.agent_id != ?`), so appending own rows leaves it unchanged. -/
theorem conflictingRows_append_own (resvs extra : List FileReservation)
    (agents : List Agent) (pid aid : Nat) (p : String)
    (h : ∀ r ∈ extra, r.agent_id = aid) :
    conflictingRows (resvs ++ extra) agents pid aid p
      = conflictingRows resvs agents pid aid p := by
  unfold conflictingRows
  rw [List.filter_append]
  have hnil : extra.filter (fun r =>
      r.project_id == pid && r.agent_id != aid && r.exclusive
        && reservationConflict r.path_pattern p) = [] := by
    apply List.filter_eq_nil_iff.mpr
    intro r hr
    simp [h r hr]
  rw [hnil, List.append_nil]

/-- Full characterisation of the per-path loop: starting from a store
`resvs ++ extra` where `extra` holds only the caller's own rows, the
conflicts and the set of granted paths are determined by `resvs` alone
(per-path independence), every grant carries the request's ttl/flags, and
the store only grows by the caller's new rows. -/
theorem reserveLoop_spec (agents : List Agent) (pid aid : Nat) (excl : Bool)
    (reason : String) (now expires : Nat) :
    ∀ (paths : List String) (resvs extra : List FileReservation) (nid : Nat)
      (g : List GrantedEntry) (c : List ConflictEntry)
      (rs : List FileReservation) (nid2 : Nat),
      (∀ r ∈ extra, r.agent_id = aid) →
      reserveLoop agents pid aid excl reason now expires paths (resvs ++ extra) nid
        = (g, c, rs, nid2) →
      c = independentConflicts resvs agents pid aid paths
        ∧ g.map (fun x => x.path_pattern) = grantablePaths resvs agents pid aid paths
        ∧ (∀ x ∈ g, x.exclusive = excl ∧ x.reason = reason ∧ x.expires_ts = expires)
        ∧ ∃ newRows, rs = resvs ++ extra ++ newRows
            ∧ newRows.map (fun r => r.path_pattern)
                = grantablePaths resvs agents pid aid paths
            ∧ ∀ r ∈ newRows, r.project_id = pid ∧ r.agent_id = aid
                ∧ r.exclusive = excl ∧ r.reason = reason
                ∧ r.created_ts = now ∧ r.expires_ts = expires := by
  intro paths
  induction paths with
  | nil =>
    intro resvs extra nid g c rs nid2 hex h
    simp only [reserveLoop, Prod.mk.injEq] at h
    obtain ⟨rfl, rfl, rfl, rfl⟩ := h
    refine ⟨rfl, rfl, by simp, [], by simp, rfl, by simp⟩
  | cons p rest ih =>
    intro resvs extra nid g c rs nid2 hex h
    have hcr := conflictingRows_append_own resvs extra agents pid aid p hex
    by_cases hemp : (conflictingRows resvs agents pid aid p).isEmpty = true
    · -- no conflict: the path is granted and a new own row is appended
      simp only [reserveLoop, hcr, hemp, if_true, Prod.mk.injEq] at h
      obtain ⟨h1, h2, h3⟩ := h
      obtain ⟨h3, h4⟩ := Prod.ext_iff.mp h3
      set row : FileReservation := ⟨nid, pid, aid, p, excl, reason, now, expires⟩ with hrow
      have hex2 : ∀ r ∈ extra ++ [row], r.agent_id = aid := by
        intro r hr
        rcases List.mem_append.mp hr with hh | hh
        · exact hex r hh
        · simp at hh; subst hh; rfl
      have hstore : (resvs ++ extra) ++ [row] = resvs ++ (extra ++ [row]) :=
        List.append_assoc resvs extra [row]
      obtain ⟨ihc, ihg, ihflags, newRows, ihrs, ihmap, ihprops⟩ :=
        ih resvs (extra ++ [row]) (nid + 1) _ _ _ _ hex2 (by rw [← hstore])
      subst h1; subst h2; subst h3; subst h4
      have hempl : conflictingRows resvs agents pid aid p = [] := by
        simpa using hemp
      refine ⟨?_, ?_, ?_, row :: newRows, ?_, ?_, ?_⟩
      · simpa [independentConflicts, hempl] using ihc
      · simpa [grantablePaths, hempl] using ihg
      · intro x hx
        rcases List.mem_cons.mp hx with rfl | hx
        · exact ⟨rfl, rfl, rfl⟩
        · exact ihflags x hx
      · rw [ihrs]; simp [List.append_assoc]
      · simpa [grantablePaths, hempl] using ihmap
      · intro r hr
        rcases List.mem_cons.mp hr with rfl | hr
        · exact ⟨rfl, rfl, rfl, rfl, rfl, rfl⟩
        · exact ihprops r hr
    · -- conflict: the path is recorded with all overlapping holders
      rw [Bool.not_eq_true] at hemp
      simp only [reserveLoop, hcr, hemp, Bool.false_eq_true, if_false, Prod.mk.injEq] at h
      obtain ⟨h1, h2, h3⟩ := h
      obtain ⟨h3, h4⟩ := Prod.ext_iff.mp h3
      obtain ⟨ihc, ihg, ihflags, newRows, ihrs, ihmap, ihprops⟩ :=
        ih resvs extra nid _ _ _ _ hex rfl
      subst h1; subst h2; subst h3; subst h4
      have hempl : conflictingRows resvs agents pid aid p ≠ [] := by
        simpa using hemp
      refine ⟨?_, ?_, ihflags, newRows, ihrs, ?_, ihprops⟩
      · simpa [independentConflicts, hempl] using ihc
      · simpa [grantablePaths, hempl] using ihg
      · simpa [grantablePaths, hempl] using ihmap

/-- A successful `tool_file_reservation_paths` run, characterised over the
post-sweep store: conflicts and grants are the per-path independent
computation over `sweptReservations db now`, and the store grows only by the
caller's new rows with `expires_ts = now + ttl_seconds`. -/
theorem reservePaths_ok (args : ReservePathsArgs) (db : DB) (now : Nat)
    (project : Project) (agent : Agent)
    (hv1 : args.project_key ≠ "") (hv2 : args.agent_name ≠ "")
    (hv3 : args.paths ≠ [])
    (hp : findProject db args.project_key = some project)
    (ha : findAgent db project.id args.agent_name = some agent) :
    ∃ res db2,
      tool_file_reservation_paths args db now = .ok (res, db2)
        ∧ res.conflicts = independentConflicts (sweptReservations db now) db.agents
            project.id agent.id args.paths
        ∧ res.granted.map (fun x => x.path_pattern)
            = grantablePaths (sweptReservations db now) db.agents project.id agent.id args.paths
        ∧ (∀ x ∈ res.granted, x.exclusive = args.exclusive ∧ x.reason = args.reason
            ∧ x.expires_ts = now + args.ttl_seconds)
        ∧ (∃ newRows,
            db2.reservations = sweptReservations db now ++ newRows
              ∧ newRows.map (fun r => r.path_pattern)
                  = grantablePaths (sweptReservations db now) db.agents project.id agent.id args.paths
              ∧ ∀ r ∈ newRows, r.project_id = project.id ∧ r.agent_id = agent.id
                  ∧ r.exclusive = args.exclusive ∧ r.reason = args.reason
                  ∧ r.created_ts = now ∧ r.expires_ts = now + args.ttl_seconds)
        ∧ db2.projects = db.projects ∧ db2.agents = db.agents := by
  set out := reserveLoop db.agents project.id agent.id args.exclusive args.reason now
    (now + args.ttl_seconds) args.paths (sweptReservations db now) db.next_reservation_id
    with hout
  obtain ⟨hc, hg, hflags, newRows, hrs, hmap, hprops⟩ :=
    reserveLoop_spec db.agents project.id agent.id args.exclusive args.reason now
      (now + args.ttl_seconds) args.paths (sweptReservations db now) []
      db.next_reservation_id out.1 out.2.1 out.2.2.1 out.2.2.2
      (by simp) (by rw [List.append_nil])
  refine ⟨⟨out.1, out.2.1⟩,
    { db with reservations := out.2.2.1, next_reservation_id := out.2.2.2 },
    ?_, hc, hg, hflags, ⟨newRows, by simpa using hrs, hmap, hprops⟩, rfl, rfl⟩
  simp only [tool_file_reservation_paths, hv1, hv2, hv3, hp, ha, if_false, ite_false]

/-! ## Claims -/

/-- Claim C1 (code bug): the exclusion invariant does not hold after every
sequence of `file_reservation_paths` calls.  Concretely: agent A reserves
the glob `src/*` exclusively; agent B then reserves the exact path
`src/foo.ts` exclusively and is granted it without any reported conflict,
leaving two live exclusive reservations of different agents in the same
project whose patterns overlap per the spec's section 4.3 definition. -/
theorem swarm_C1_exclusion_invariant_code_bug :
    tool_file_reservation_paths argsGlobA baseDB 0
        = .ok (⟨[⟨1, "src/*", true, "", 100⟩], []⟩, dbAfterGlobA)
      ∧ tool_file_reservation_paths argsExactB dbAfterGlobA 0
        = .ok (⟨[⟨2, "src/foo.ts", true, "", 100⟩], []⟩, dbAfterBoth)
      ∧ exclusionInvariantViolated dbAfterBoth 0 = true := by
  decide

/-- Claim C2 (code bug): overlap detection is not symmetric.  An existing
exclusive reservation of another agent on the glob `src/*` does NOT
conflict with a later request for the exact path `src/foo.ts` (the request
is granted), because the SQL rewrites `*` to the LIKE wildcard `%` only in
the requested path, never in the stored pattern; the converse direction
(stored exact `src/foo.ts` against requested glob `src/*`) does conflict,
and the spec's section 4.3 overlap relation holds for the pair. -/
theorem swarm_C2_glob_symmetry_code_bug :
    tool_file_reservation_paths ⟨"proj", "B", ["src/foo.ts"], 3600, true, ""⟩ dbHoldGlob 10
        = .ok (⟨[⟨2, "src/foo.ts", true, "", 3610⟩], []⟩, dbGlobPlusExact)
      ∧ tool_file_reservation_paths ⟨"proj", "B", ["src/*"], 3600, true, ""⟩ dbHoldExact 10
        = .ok (⟨[], [⟨"src/*", ["A"]⟩]⟩, dbHoldExact)
      ∧ reservationConflict "src/*" "src/foo.ts" = false
      ∧ specOverlap "src/*" "src/foo.ts" = true := by
  decide

/-- Claim C3 (confirmed): every `file_reservation_paths` call deletes the
reservations whose `expires_ts` has passed before conflict checking: a
reservation of the pre-call store with `expires_ts < now` is gone from the
post-call store, and every holder named in the returned conflicts comes
from a still-live (`¬ expires_ts < now`) exclusive other-agent reservation
of the project that overlaps the conflicting path. -/
theorem swarm_C3_lazy_expiry (args : ReservePathsArgs) (db : DB) (now : Nat)
    (project : Project) (agent : Agent)
    (hv1 : args.project_key ≠ "") (hv2 : args.agent_name ≠ "")
    (hv3 : args.paths ≠ [])
    (hp : findProject db args.project_key = some project)
    (ha : findAgent db project.id args.agent_name = some agent) :
    ∃ res db2,
      tool_file_reservation_paths args db now = .ok (res, db2)
        ∧ (∀ r ∈ db.reservations, r.expires_ts < now → r ∉ db2.reservations)
        ∧ (∀ ce ∈ res.conflicts, ∀ hname ∈ ce.holders,
            ∃ r ∈ db2.reservations, ∃ a ∈ db.agents,
              a.id = r.agent_id ∧ a.name = hname
                ∧ ¬ r.expires_ts < now
                ∧ r.project_id = project.id ∧ r.agent_id ≠ agent.id
                ∧ r.exclusive = true
                ∧ reservationConflict r.path_pattern ce.path = true) := by
  obtain ⟨res, db2, hok, hconf, hgrant, hflags, ⟨newRows, hrs, hmap, hprops⟩, hpr, hag⟩ :=
    reservePaths_ok args db now project agent hv1 hv2 hv3 hp ha
  refine ⟨res, db2, hok, ?_, ?_⟩
  · intro r hr hlt hmem
    rw [hrs] at hmem
    rcases List.mem_append.mp hmem with hmem | hmem
    · have hkeep := (List.mem_filter.mp hmem).2
      simp only [sweptReservations] at hkeep
      simp at hkeep
      omega
    · have hexp := (hprops r hmem).2.2.2.2.2
      omega
  · intro ce hce hname hh
    rw [hconf] at hce
    obtain ⟨p, hpmem, hfp⟩ := List.mem_filterMap.mp hce
    by_cases hemp : (conflictingRows (sweptReservations db now) db.agents
        project.id agent.id p).isEmpty = true
    · rw [if_pos hemp] at hfp; exact absurd hfp (by simp)
    · rw [if_neg hemp] at hfp
      obtain rfl := (Option.some_inj.mp hfp)
      obtain ⟨pr, hprmem, hprname⟩ := List.mem_map.mp hh
      obtain ⟨r0, hr0mem, hr0join⟩ := List.mem_filterMap.mp hprmem
      obtain ⟨a0, hfind, hpair⟩ := Option.map_eq_some'.mp hr0join
      subst hpair
      obtain ⟨hr0swept, hr0pred⟩ := List.mem_filter.mp hr0mem
      have hamem := List.mem_of_find?_eq_some hfind
      have haid := List.find?_some hfind
      simp only [beq_iff_eq] at haid
      have hr0live : ¬ r0.expires_ts < now := by
        have := (List.mem_filter.mp hr0swept).2
        simpa [sweptReservations] using this
      simp only [Bool.and_eq_true, beq_iff_eq, bne_iff_ne] at hr0pred
      refine ⟨r0, ?_, a0, hamem, haid, ?_, hr0live, hr0pred.1.1.1, hr0pred.1.1.2,
        hr0pred.1.2, hr0pred.2⟩
      · rw [hrs]
        exact List.mem_append.mpr (Or.inl hr0swept)
      · simpa using hprname

/-- Witness for C3 at a concrete input: B reserves `src/a.ts` at instant 10
while A's reservation on the same path expired at instant 5; the expired
row is gone afterwards (and, per the full theorem, was not a conflict
source). -/
theorem swarm_C3_witness :
    ∃ res db2,
      tool_file_reservation_paths ⟨"proj", "B", ["src/a.ts"], 3600, true, ""⟩ dbExpired 10
          = .ok (res, db2)
        ∧ ∀ r ∈ dbExpired.reservations, r.expires_ts < 10 → r ∉ db2.reservations := by
  obtain ⟨res, db2, h1, h2, h3⟩ :=
    swarm_C3_lazy_expiry ⟨"proj", "B", ["src/a.ts"], 3600, true, ""⟩ dbExpired 10
      projectP agentB (by decide) (by decide) (by decide) rfl rfl
  exact ⟨res, db2, h1, h2⟩

/-- Claim C4 (confirmed): `file_reservation_paths` evaluates every requested
path independently against the post-sweep store (so a conflict on an
earlier path never blocks a later path): each path is either granted — a
new reservation row of the caller with `expires_ts = now + ttl_seconds` —
or recorded as a conflict entry carrying the names of all overlapping
holders, exactly as the independent per-path computation
`independentConflicts`/`grantablePaths` prescribes. -/
theorem swarm_C4_partial_grant (args : ReservePathsArgs) (db : DB) (now : Nat)
    (project : Project) (agent : Agent)
    (hv1 : args.project_key ≠ "") (hv2 : args.agent_name ≠ "")
    (hv3 : args.paths ≠ [])
    (hp : findProject db args.project_key = some project)
    (ha : findAgent db project.id args.agent_name = some agent) :
    ∃ res db2,
      tool_file_reservation_paths args db now = .ok (res, db2)
        ∧ res.conflicts = independentConflicts (sweptReservations db now) db.agents
            project.id agent.id args.paths
        ∧ res.granted.map (fun x => x.path_pattern)
            = grantablePaths (sweptReservations db now) db.agents project.id agent.id args.paths
        ∧ (∀ x ∈ res.granted, x.exclusive = args.exclusive ∧ x.reason = args.reason
            ∧ x.expires_ts = now + args.ttl_seconds)
        ∧ ∃ newRows,
            db2.reservations = sweptReservations db now ++ newRows
              ∧ newRows.map (fun r => r.path_pattern)
                  = grantablePaths (sweptReservations db now) db.agents project.id agent.id args.paths
              ∧ ∀ r ∈ newRows, r.project_id = project.id ∧ r.agent_id = agent.id
                  ∧ r.exclusive = args.exclusive ∧ r.reason = args.reason
                  ∧ r.created_ts = now ∧ r.expires_ts = now + args.ttl_seconds := by
  obtain ⟨res, db2, hok, hconf, hgrant, hflags, hnew, hpr, hag⟩ :=
    reservePaths_ok args db now project agent hv1 hv2 hv3 hp ha
  exact ⟨res, db2, hok, hconf, hgrant, hflags, hnew⟩

/-- Witness for C4: the spec's partial-grant scenario — A holds `src/a.ts`,
B requests `[src/a.ts, src/b.ts]`; `src/b.ts` is granted and `src/a.ts`
conflicts with holders `[A]`. -/
theorem swarm_C4_witness :
    ∃ res db2,
      tool_file_reservation_paths ⟨"proj", "B", ["src/a.ts", "src/b.ts"], 3600, true, ""⟩
          dbHoldA 10 = .ok (res, db2)
        ∧ res.conflicts = independentConflicts (sweptReservations dbHoldA 10) dbHoldA.agents
            1 2 ["src/a.ts", "src/b.ts"]
        ∧ res.granted.map (fun x => x.path_pattern)
            = grantablePaths (sweptReservations dbHoldA 10) dbHoldA.agents 1 2
                ["src/a.ts", "src/b.ts"]
        ∧ independentConflicts (sweptReservations dbHoldA 10) dbHoldA.agents 1 2
            ["src/a.ts", "src/b.ts"] = [⟨"src/a.ts", ["A"]⟩]
        ∧ grantablePaths (sweptReservations dbHoldA 10) dbHoldA.agents 1 2
            ["src/a.ts", "src/b.ts"] = ["src/b.ts"] := by
  obtain ⟨res, db2, hok, hconf, hgrant, hflags, hnew⟩ :=
    swarm_C4_partial_grant ⟨"proj", "B", ["src/a.ts", "src/b.ts"], 3600, true, ""⟩
      dbHoldA 10 projectP agentB (by decide) (by decide) (by decide) rfl rfl
  exact ⟨res, db2, hok, hconf, hgrant, by decide, by decide⟩

/-- When `file_reservation_ids` is non-empty, the `paths` argument plays no
role at all in `tool_release_file_reservations`. -/
theorem release_ignores_paths (args : ReleaseArgs) (db : DB) (now : Nat)
    (otherPaths : List String) (hids : args.file_reservation_ids ≠ []) :
    tool_release_file_reservations { args with paths := otherPaths } db now
      = tool_release_file_reservations args db now := by
  unfold tool_release_file_reservations
  have hc : ∀ aid, releaseCond { args with paths := otherPaths } aid
      = releaseCond args aid := by
    intro aid
    funext r
    simp [releaseCond, hids]
  simp only [hc]

/-- Claim C5 (confirmed): `release_file_reservations` deletes by ids when
`file_reservation_ids` is supplied (non-empty), ignoring `paths` entirely;
otherwise by exact `path_pattern` equality when `paths` is supplied;
otherwise all of the caller's reservations — and in every branch only rows
owned by the calling agent are deleted. -/
theorem swarm_C5_release_precedence (args : ReleaseArgs) (db : DB) (now : Nat)
    (project : Project) (agent : Agent)
    (hv1 : args.project_key ≠ "") (hv2 : args.agent_name ≠ "")
    (hp : findProject db args.project_key = some project)
    (ha : findAgent db project.id args.agent_name = some agent) :
    ∃ res db2,
      tool_release_file_reservations args db now = .ok (res, db2)
        ∧ (args.file_reservation_ids ≠ [] →
            db2.reservations = db.reservations.filter (fun r =>
              !(args.file_reservation_ids.contains r.id && r.agent_id == agent.id))
            ∧ ∀ otherPaths,
                tool_release_file_reservations { args with paths := otherPaths } db now
                  = tool_release_file_reservations args db now)
        ∧ (args.file_reservation_ids = [] → args.paths ≠ [] →
            db2.reservations = db.reservations.filter (fun r =>
              !(args.paths.contains r.path_pattern && r.agent_id == agent.id)))
        ∧ (args.file_reservation_ids = [] → args.paths = [] →
            db2.reservations = db.reservations.filter (fun r => !(r.agent_id == agent.id)))
        ∧ (∀ r ∈ db.reservations, r.agent_id ≠ agent.id → r ∈ db2.reservations) := by
  refine ⟨⟨(db.reservations.filter (releaseCond args agent.id)).length, now⟩,
    { db with reservations := db.reservations.filter (fun r => !(releaseCond args agent.id r)) },
    ?_, ?_, ?_, ?_, ?_⟩
  · simp only [tool_release_file_reservations, hv1, hv2, hp, ha, if_false, ite_false]
  · intro hids
    refine ⟨?_, fun otherPaths => release_ignores_paths args db now otherPaths hids⟩
    apply List.filter_congr
    intro r hr
    simp [releaseCond, hids]
  · intro hids hpaths
    apply List.filter_congr
    intro r hr
    simp [releaseCond, hids, hpaths]
  · intro hids hpaths
    apply List.filter_congr
    intro r hr
    simp [releaseCond, hids, hpaths]
  · intro r hr hne
    apply List.mem_filter.mpr
    refine ⟨hr, ?_⟩
    simp [releaseCond, hne]

/-- Resolution functions only read `projects`/`agents`, so updating the
other tables does not change them. -/
theorem findProject_update_recipients (db : DB) (u : List Recipient) (k : String) :
    findProject { db with recipients := u } k = findProject db k := rfl

theorem findAgent_update_recipients (db : DB) (u : List Recipient) (pid : Nat) (n : String) :
    findAgent { db with recipients := u } pid n = findAgent db pid n := rfl

/-- The recipient loop of `tool_send_message` succeeds and appends exactly
one delivery record per resolved recipient name, provided no record for the
fresh message id pre-exists and the resolved agent ids are pairwise
distinct (otherwise the primary key of `message_recipients` fires). -/
theorem insertRecipients_spec (mid pid : Nat) :
    ∀ (names : List String) (db : DB),
      (∀ a ∈ names.filterMap (fun n2 => findAgent db pid n2),
        ∀ rec ∈ db.recipients, ¬(rec.message_id = mid ∧ rec.agent_id = a.id)) →
      ((names.filterMap (fun n2 => findAgent db pid n2)).map (fun a => a.id)).Nodup →
      insertRecipients mid pid db names
        = .ok { db with recipients := db.recipients ++ recipientRows db pid mid names } := by
  intro names
  induction names with
  | nil =>
    intro db h1 h2
    simp [insertRecipients, recipientRows]
  | cons n rest ih =>
    intro db h1 h2
    cases hfa : findAgent db pid n with
    | none =>
      have hfm : (n :: rest).filterMap (fun n2 => findAgent db pid n2)
          = rest.filterMap (fun n2 => findAgent db pid n2) := by
        rw [List.filterMap_cons, hfa]
      have hfmR : recipientRows db pid mid (n :: rest) = recipientRows db pid mid rest := by
        simp only [recipientRows, hfm]
      rw [hfm] at h1 h2
      simp only [insertRecipients, hfa]
      rw [hfmR]
      exact ih db h1 h2
    | some a =>
      have hfm : (n :: rest).filterMap (fun n2 => findAgent db pid n2)
          = a :: rest.filterMap (fun n2 => findAgent db pid n2) := by
        rw [List.filterMap_cons, hfa]
      have hfmR : recipientRows db pid mid (n :: rest)
          = ⟨mid, a.id, none, none⟩ :: recipientRows db pid mid rest := by
        simp only [recipientRows, hfm, List.map_cons]
      rw [hfm] at h1 h2
      rw [List.map_cons] at h2
      obtain ⟨hnotin, h2tail⟩ := List.nodup_cons.mp h2
      have hany : (db.recipients.any (fun rec =>
          rec.message_id == mid && rec.agent_id == a.id)) = false := by
        rw [List.any_eq_false]
        intro rec hrec
        have hno := h1 a (List.mem_cons_self a _) rec hrec
        simp only [Bool.and_eq_true, beq_iff_eq, not_and]
        intro hm hag
        exact hno ⟨hm, hag⟩
      simp only [insertRecipients, hfa, hany, Bool.false_eq_true, if_false, ite_false]
      have h1x : ∀ a2 ∈ rest.filterMap (fun n2 =>
            findAgent { db with recipients :=
              db.recipients ++ [⟨mid, a.id, none, none⟩] } pid n2),
          ∀ rec ∈ ({ db with recipients :=
              db.recipients ++ [⟨mid, a.id, none, none⟩] } : DB).recipients,
            ¬(rec.message_id = mid ∧ rec.agent_id = a2.id) := by
        intro a2 ha2 rec hrec
        have ha2x : a2 ∈ rest.filterMap (fun n2 => findAgent db pid n2) := ha2
        have hrecx : rec ∈ db.recipients ++ [⟨mid, a.id, none, none⟩] := hrec
        rcases List.mem_append.mp hrecx with hh | hh
        · exact h1 a2 (List.mem_cons_of_mem a ha2x) rec hh
        · have hreq : rec = ⟨mid, a.id, none, none⟩ := by simpa using hh
          subst hreq
          rintro ⟨hm, hag⟩
          apply hnotin
          have hid : a.id = a2.id := hag
          rw [hid]
          exact List.mem_map.mpr ⟨a2, ha2x, rfl⟩
      have h2x : ((rest.filterMap (fun n2 =>
            findAgent { db with recipients :=
              db.recipients ++ [⟨mid, a.id, none, none⟩] } pid n2)).map
            (fun a2 => a2.id)).Nodup := h2tail
      rw [ih _ h1x h2x]
      show Except.ok ({ db with recipients :=
          (db.recipients ++ [⟨mid, a.id, none, none⟩]) ++ recipientRows db pid mid rest } : DB) = _
      rw [hfmR, List.append_assoc, List.singleton_append]

/-- Claim C6 counterexample: the claim fails as stated when the same
resolved recipient appears twice.  Project and sender resolve, yet sending
to `[Alice, Alice]` violates the `message_recipients` primary key: the
whole call errors (and rolls back) instead of succeeding. -/
theorem swarm_C6_counterexample :
    findProject mailDB ("proj") = some projectP
      ∧ findAgent mailDB 1 ("Bob") = some bob
      ∧ tool_send_message argsDupSend mailDB 7
        = .error (.integrityError
            "UNIQUE constraint failed: message_recipients.message_id, message_recipients.agent_id") := by
  decide

/-- Claim C6 (amended): for every `send_message` call whose project and
sender resolve, whose requested recipients resolve to pairwise-distinct
agents, and whose store has no delivery record under the fresh message id,
unresolved recipient names are silently skipped: the message row is
created, exactly one delivery record appears per resolved name, the call
succeeds, and the result echoes the requested recipient list. -/
theorem swarm_C6_lenient_delivery (args : SendMessageArgs) (db : DB) (now : Nat)
    (project : Project) (sender : Agent)
    (hv1 : args.project_key ≠ "") (hv2 : args.sender_name ≠ "")
    (hv3 : args.«to» ≠ [])
    (hp : findProject db args.project_key = some project)
    (hs : findAgent db project.id args.sender_name = some sender)
    (hfresh : ∀ rec ∈ db.recipients, rec.message_id ≠ db.next_message_id)
    (hnodup : ((args.«to».filterMap (fun n2 => findAgent db project.id n2)).map
        (fun a => a.id)).Nodup) :
    tool_send_message args db now
      = .ok (⟨db.next_message_id, args.subject, args.«to», now⟩,
          { db with
            messages := db.messages ++ [⟨db.next_message_id, project.id, sender.id,
              args.subject, args.body_md, args.thread_id, args.importance,
              args.ack_required, "message", now⟩],
            recipients := db.recipients ++ recipientRows db project.id db.next_message_id args.«to»,
            next_message_id := db.next_message_id + 1 }) := by
  simp only [tool_send_message, hv1, hv2, hv3, hp, hs, if_false, ite_false]
  have h1d : ∀ a ∈ args.«to».filterMap (fun n2 => findAgent db project.id n2),
      ∀ rec ∈ db.recipients, ¬(rec.message_id = db.next_message_id ∧ rec.agent_id = a.id) := by
    intro a ha rec hrec
    rintro ⟨hm, hag⟩
    exact hfresh rec hrec hm
  have key := insertRecipients_spec db.next_message_id project.id args.«to»
    { db with
      messages := db.messages ++ [⟨db.next_message_id, project.id, sender.id,
        args.subject, args.body_md, args.thread_id, args.importance,
        args.ack_required, "message", now⟩],
      next_message_id := db.next_message_id + 1 }
    h1d hnodup
  rw [key]
  rfl

/-- Witness for the amended C6: Bob sends to `[Alice, Ghost]`; Ghost does
not exist; the call succeeds, the message is created and only Alice
receives a delivery record, while the result echoes both names. -/
theorem swarm_C6_witness :
    tool_send_message argsGhostSend mailDB 7 = .ok (⟨1, "hi", ["Alice", "Ghost"], 7⟩, dbGhostAfter) := by
  have h := swarm_C6_lenient_delivery argsGhostSend mailDB 7 projectP bob
    (by decide) (by decide) (by decide) rfl rfl (by decide) (by decide)
  exact h

/-- Key fields are untouched by the read-mark update. -/
theorem markReadUpdate_key (mid aid t : Nat) (r : Recipient) :
    (((markReadUpdate mid aid t r).message_id == mid)
        && ((markReadUpdate mid aid t r).agent_id == aid))
      = ((r.message_id == mid) && (r.agent_id == aid)) := by
  unfold markReadUpdate
  split <;> rfl

theorem ackUpdate_key (mid aid t : Nat) (r : Recipient) :
    (((ackUpdate mid aid t r).message_id == mid)
        && ((ackUpdate mid aid t r).agent_id == aid))
      = ((r.message_id == mid) && (r.agent_id == aid)) := by
  unfold ackUpdate
  split <;> rfl

/-- Mapping a key-preserving row update over the table preserves the number
of rows matching the key. -/
theorem filter_length_map (l : List Recipient) (u : Recipient → Recipient)
    (p : Recipient → Bool) (h : ∀ r, p (u r) = p r) :
    ((l.map u).filter p).length = (l.filter p).length := by
  rw [List.filter_map, List.length_map]
  exact congrArg List.length (List.filter_congr (fun r _ => h r))

/-- Witness for C5: A releases with both `file_reservation_ids = [1]` and
`paths = [b]` supplied; only reservation 1 is deleted (`b` survives), and
the same call with any other `paths` value behaves identically. -/
theorem swarm_C5_witness :
    ∃ res db2,
      tool_release_file_reservations ⟨"proj", "A", ["b"], [1]⟩ dbRelease 10 = .ok (res, db2)
        ∧ db2.reservations = dbRelease.reservations.filter (fun r =>
            !(([1] : List Nat).contains r.id && r.agent_id == 1))
        ∧ tool_release_file_reservations ⟨"proj", "A", [], [1]⟩ dbRelease 10
            = tool_release_file_reservations ⟨"proj", "A", ["b"], [1]⟩ dbRelease 10
        ∧ (∀ r ∈ dbRelease.reservations, r.agent_id ≠ 1 → r ∈ db2.reservations) := by
  obtain ⟨res, db2, hok, hid, hbypath, hall, hscope⟩ :=
    swarm_C5_release_precedence ⟨"proj", "A", ["b"], [1]⟩ dbRelease 10 projectP agentA
      (by decide) (by decide) rfl rfl
  obtain ⟨hdel, hignore⟩ := hid (by decide)
  exact ⟨res, db2, hok, hdel, hignore [], hscope⟩

/-- The read-mark update leaves the individual key fields unchanged. -/
theorem markReadUpdate_message_id (mid aid t : Nat) (r : Recipient) :
    (markReadUpdate mid aid t r).message_id = r.message_id := by
  unfold markReadUpdate
  split <;> rfl

theorem markReadUpdate_agent_id (mid aid t : Nat) (r : Recipient) :
    (markReadUpdate mid aid t r).agent_id = r.agent_id := by
  unfold markReadUpdate
  split <;> rfl

theorem ackUpdate_message_id (mid aid t : Nat) (r : Recipient) :
    (ackUpdate mid aid t r).message_id = r.message_id := by
  unfold ackUpdate
  split <;> rfl

theorem ackUpdate_agent_id (mid aid t : Nat) (r : Recipient) :
    (ackUpdate mid aid t r).agent_id = r.agent_id := by
  unfold ackUpdate
  split <;> rfl

/-- Claim C8 (confirmed): marking the same message read twice by the same
agent never errors; with exactly one delivery record for the pair before
the calls, exactly one remains afterwards, and its `read_at` carries the
second (newer) call's timestamp — last write wins.  `acknowledge_message`
behaves identically for `acked_at`. -/
theorem swarm_C8_idempotent_marks (pk an : String) (mid : Nat) (db : DB)
    (t1 t2 : Nat) (project : Project) (agent : Agent)
    (hv1 : pk ≠ "") (hv2 : an ≠ "") (hv3 : mid ≠ 0)
    (hp : findProject db pk = some project)
    (ha : findAgent db project.id an = some agent)
    (hone : (db.recipients.filter (fun r =>
      r.message_id == mid && r.agent_id == agent.id)).length = 1) :
    (∃ db1 db2,
      tool_mark_message_read ⟨pk, an, mid⟩ db t1 = .ok (⟨mid, t1⟩, db1)
        ∧ tool_mark_message_read ⟨pk, an, mid⟩ db1 t2 = .ok (⟨mid, t2⟩, db2)
        ∧ (db2.recipients.filter (fun r =>
            r.message_id == mid && r.agent_id == agent.id)).length = 1
        ∧ ∀ r ∈ db2.recipients, r.message_id = mid → r.agent_id = agent.id →
            r.read_at = some t2)
    ∧ (∃ db1 db2,
      tool_acknowledge_message ⟨pk, an, mid⟩ db t1 = .ok (⟨mid, t1⟩, db1)
        ∧ tool_acknowledge_message ⟨pk, an, mid⟩ db1 t2 = .ok (⟨mid, t2⟩, db2)
        ∧ (db2.recipients.filter (fun r =>
            r.message_id == mid && r.agent_id == agent.id)).length = 1
        ∧ ∀ r ∈ db2.recipients, r.message_id = mid → r.agent_id = agent.id →
            r.acked_at = some t2) := by
  constructor
  · refine ⟨{ db with recipients := db.recipients.map (markReadUpdate mid agent.id t1) },
      { db with recipients := (db.recipients.map (markReadUpdate mid agent.id t1)).map (markReadUpdate mid agent.id t2) },
      ?_, ?_, ?_, ?_⟩
    · simp only [tool_mark_message_read, hv1, hv2, hv3, hp, ha, or_self, or_false,
        false_or, if_false, ite_false]
    · simp only [tool_mark_message_read, hv1, hv2, hv3, or_self, or_false, false_or,
        if_false, ite_false, findProject_update_recipients, findAgent_update_recipients,
        hp, ha]
    · rw [filter_length_map _ _ _ (markReadUpdate_key mid agent.id t2),
        filter_length_map _ _ _ (markReadUpdate_key mid agent.id t1), hone]
    · intro r hr hm hag
      obtain ⟨r1, hr1, rfl⟩ := List.mem_map.mp hr
      have hm1 : r1.message_id = mid := by rw [← markReadUpdate_message_id mid agent.id t2 r1]; exact hm
      have hag1 : r1.agent_id = agent.id := by rw [← markReadUpdate_agent_id mid agent.id t2 r1]; exact hag
      simp [markReadUpdate, hm1, hag1]
  · refine ⟨{ db with recipients := db.recipients.map (ackUpdate mid agent.id t1) },
      { db with recipients := (db.recipients.map (ackUpdate mid agent.id t1)).map (ackUpdate mid agent.id t2) },
      ?_, ?_, ?_, ?_⟩
    · simp only [tool_acknowledge_message, hv1, hv2, hv3, hp, ha, or_self, or_false,
        false_or, if_false, ite_false]
    · simp only [tool_acknowledge_message, hv1, hv2, hv3, or_self, or_false, false_or,
        if_false, ite_false, findProject_update_recipients, findAgent_update_recipients,
        hp, ha]
    · rw [filter_length_map _ _ _ (ackUpdate_key mid agent.id t2),
        filter_length_map _ _ _ (ackUpdate_key mid agent.id t1), hone]
    · intro r hr hm hag
      obtain ⟨r1, hr1, rfl⟩ := List.mem_map.mp hr
      have hm1 : r1.message_id = mid := by rw [← ackUpdate_message_id mid agent.id t2 r1]; exact hm
      have hag1 : r1.agent_id = agent.id := by rw [← ackUpdate_agent_id mid agent.id t2 r1]; exact hag
      simp [ackUpdate, hm1, hag1]

/-- Witness for C8: Alice marks message 1 read at instants 5 then 9; both
calls succeed and the single delivery record ends with `read_at = 9` (the
ack half analogously). -/
theorem swarm_C8_witness :
    ∃ db1 db2,
      tool_mark_message_read ⟨"proj", "Alice", 1⟩ readDB 5 = .ok (⟨1, 5⟩, db1)
        ∧ tool_mark_message_read ⟨"proj", "Alice", 1⟩ db1 9 = .ok (⟨1, 9⟩, db2)
        ∧ (db2.recipients.filter (fun r => r.message_id == 1 && r.agent_id == 1)).length = 1
        ∧ ∀ r ∈ db2.recipients, r.message_id = 1 → r.agent_id = 1 → r.read_at = some 9 := by
  obtain ⟨hmark, hack⟩ :=
    swarm_C8_idempotent_marks ("proj") ("Alice") 1 readDB 5 9 projectP alice
      (by decide) (by decide) (by decide) rfl rfl (by decide)
  exact hmark

/-- Claim C9 (confirmed): when the caller has no delivery record for the
given message id — in particular when the message does not exist — both
`mark_message_read` and `acknowledge_message` still succeed, return the
fresh timestamp, and leave the database unchanged; after validation, only
project and agent resolution can fail. -/
theorem swarm_C9_mark_missing (pk an : String) (mid : Nat) (db : DB) (now : Nat)
    (project : Project) (agent : Agent)
    (hv1 : pk ≠ "") (hv2 : an ≠ "") (hv3 : mid ≠ 0)
    (hp : findProject db pk = some project)
    (ha : findAgent db project.id an = some agent)
    (hnone : ∀ r ∈ db.recipients, ¬(r.message_id = mid ∧ r.agent_id = agent.id)) :
    tool_mark_message_read ⟨pk, an, mid⟩ db now = .ok (⟨mid, now⟩, db)
      ∧ tool_acknowledge_message ⟨pk, an, mid⟩ db now = .ok (⟨mid, now⟩, db) := by
  have hcond : ∀ r ∈ db.recipients,
      (r.message_id == mid && r.agent_id == agent.id) = false := by
    intro r hr
    rcases eq_or_ne r.message_id mid with hm | hm
    · rcases eq_or_ne r.agent_id agent.id with hg | hg
      · exact absurd ⟨hm, hg⟩ (hnone r hr)
      · simp [hg]
    · simp [hm]
  have hmap1 : db.recipients.map (markReadUpdate mid agent.id now) = db.recipients := by
    conv_rhs => rw [← List.map_id db.recipients]
    apply List.map_congr_left
    intro r hr
    simp [markReadUpdate, hcond r hr]
  have hmap2 : db.recipients.map (ackUpdate mid agent.id now) = db.recipients := by
    conv_rhs => rw [← List.map_id db.recipients]
    apply List.map_congr_left
    intro r hr
    simp [ackUpdate, hcond r hr]
  constructor
  · simp only [tool_mark_message_read, hv1, hv2, hv3, hp, ha, or_self, or_false,
      false_or, if_false, ite_false, hmap1]
  · simp only [tool_acknowledge_message, hv1, hv2, hv3, hp, ha, or_self, or_false,
      false_or, if_false, ite_false, hmap2]

/-- Witness for C9: message id 99 does not exist in `readDB`; both marks
succeed with the fresh timestamp and the database is unchanged. -/
theorem swarm_C9_witness :
    tool_mark_message_read ⟨"proj", "Alice", 99⟩ readDB 5 = .ok (⟨99, 5⟩, readDB)
      ∧ tool_acknowledge_message ⟨"proj", "Alice", 99⟩ readDB 5 = .ok (⟨99, 5⟩, readDB) :=
  swarm_C9_mark_missing ("proj") ("Alice") 99 readDB 5 projectP alice
    (by decide) (by decide) (by decide) rfl rfl (by decide)

/-- Claim C10 (confirmed): whenever `send_message` succeeds, the `sent_to`
field of its result is the requested `to` list verbatim — including names
that resolved to no agent and received no delivery record — so the result
alone never reveals which recipients were skipped. -/
theorem swarm_C10_sent_to_verbatim (args : SendMessageArgs) (db : DB) (now : Nat)
    (res : SendMessageResult) (db2 : DB)
    (h : tool_send_message args db now = .ok (res, db2)) :
    res.sent_to = args.«to» := by
  unfold tool_send_message at h
  split at h
  · exact absurd h (by simp)
  split at h
  · exact absurd h (by simp)
  split at h
  · exact absurd h (by simp)
  split at h
  · exact absurd h (by simp)
  split at h
  · exact absurd h (by simp)
  dsimp only at h
  split at h
  · exact absurd h (by simp)
  obtain ⟨hpair, -⟩ := Prod.ext_iff.mp (Except.ok.inj h)
  dsimp only at hpair
  rw [← hpair]

/-- Witness for C10: the successful ghost-recipient send echoes
`[Alice, Ghost]` even though only Alice was delivered to. -/
theorem swarm_C10_witness :
    (⟨1, "hi", ["Alice", "Ghost"], 7⟩ : SendMessageResult).sent_to = ["Alice", "Ghost"] :=
  swarm_C10_sent_to_verbatim argsGhostSend mailDB 7 ⟨1, "hi", ["Alice", "Ghost"], 7⟩
    dbGhostAfter (by decide)

/-- Taking the prefix length of an appended string returns the prefix. -/
theorem take_data_append (pre k : String) :
    (pre ++ k).data.take pre.data.length = pre.data := by
  rw [String.data_append]
  exact List.take_left pre.data k.data

/-- A string whose data does not start with `pre` is not `pre ++ k`. -/
theorem ne_of_prefix_mismatch (pre v : String)
    (h : v.data.take pre.data.length ≠ pre.data) : ∀ k, pre ++ k ≠ v := by
  intro k hk
  apply h
  rw [← hk]
  exact take_data_append pre k

/-- No fixed validation message has the shape of a not-found message, for
any project key or agent name the caller might supply. -/
theorem validation_not_notfound : ∀ m ∈ validationMsgs, ¬ isNotFoundMsg m := by
  intro m hm hnf
  simp only [validationMsgs, List.mem_cons, List.not_mem_nil, or_false] at hm
  rcases hnf with ⟨k, hk⟩ | ⟨k, hk⟩ | ⟨k, hk⟩ <;>
    rcases hm with rfl | rfl | rfl | rfl | rfl | rfl | rfl | rfl | rfl <;>
      exact ne_of_prefix_mismatch _ _ (by decide) k hk.symm

/-- Claim C7 (confirmed): for every operation, a missing or empty required
argument raises a `ValueError` carrying one of the fixed validation
messages, an unresolved project or agent key raises a `ValueError` carrying
a not-found message, and the two families are disjoint, so the errors
surfaced to the caller by `mcp_endpoint` are always distinguishable (they
share the JSON-RPC code -32602 but never the message). -/
theorem swarm_C7_distinct_error_kinds :
    ((∀ args db now, args.human_key = "" →
        tool_ensure_project args db now = .error (.valueError "human_key is required"))
      ∧ (∀ gen fb args db now, args.project_key = "" →
        tool_register_agent gen fb args db now = .error (.valueError "project_key is required"))
      ∧ (∀ args db now, args.project_key = "" →
        tool_send_message args db now = .error (.valueError "project_key is required"))
      ∧ (∀ args db now, args.project_key ≠ "" → args.sender_name = "" →
        tool_send_message args db now = .error (.valueError "sender_name is required"))
      ∧ (∀ args db now, args.project_key ≠ "" → args.sender_name ≠ "" → args.«to» = [] →
        tool_send_message args db now
          = .error (.valueError "to is required (list of recipient names)"))
      ∧ (∀ args db now, args.project_key = "" →
        tool_fetch_inbox args db now = .error (.valueError "project_key is required"))
      ∧ (∀ args db now, args.project_key ≠ "" → args.agent_name = "" →
        tool_fetch_inbox args db now = .error (.valueError "agent_name is required"))
      ∧ (∀ args db now, args.project_key = "" ∨ args.agent_name = "" ∨ args.message_id = 0 →
        tool_mark_message_read args db now
          = .error (.valueError "project_key, agent_name, and message_id are required"))
      ∧ (∀ args db now, args.project_key = "" ∨ args.agent_name = "" ∨ args.message_id = 0 →
        tool_acknowledge_message args db now
          = .error (.valueError "project_key, agent_name, and message_id are required"))
      ∧ (∀ args db now, args.project_key = "" →
        tool_summarize_thread args db now = .error (.valueError "project_key is required"))
      ∧ (∀ args db now, args.project_key ≠ "" → args.thread_id = "" →
        tool_summarize_thread args db now = .error (.valueError "thread_id is required"))
      ∧ (∀ args db now, args.project_key = "" →
        tool_file_reservation_paths args db now
          = .error (.valueError "project_key is required"))
      ∧ (∀ args db now, args.project_key ≠ "" → args.agent_name = "" →
        tool_file_reservation_paths args db now
          = .error (.valueError "agent_name is required"))
      ∧ (∀ args db now, args.project_key ≠ "" → args.agent_name ≠ "" → args.paths = [] →
        tool_file_reservation_paths args db now
          = .error (.valueError "paths is required (list of path patterns)"))
      ∧ (∀ args db now, args.project_key = "" →
        tool_release_file_reservations args db now
          = .error (.valueError "project_key is required"))
      ∧ (∀ args db now, args.project_key ≠ "" → args.agent_name = "" →
        tool_release_file_reservations args db now
          = .error (.valueError "agent_name is required"))
      ∧ (∀ fts args db now, args.project_key = "" →
        tool_search_messages fts args db now = .error (.valueError "project_key is required"))
      ∧ (∀ fts args db now, args.project_key ≠ "" → args.query = "" →
        tool_search_messages fts args db now = .error (.valueError "query is required")))
    ∧ ((∀ gen fb args db now, args.project_key ≠ "" →
          findProject db args.project_key = none →
        tool_register_agent gen fb args db now
          = .error (.valueError ("Project not found: " ++ args.project_key)))
      ∧ (∀ args db now, args.project_key ≠ "" → args.sender_name ≠ "" → args.«to» ≠ [] →
          findProject db args.project_key = none →
        tool_send_message args db now
          = .error (.valueError ("Project not found: " ++ args.project_key)))
      ∧ (∀ args db now project, args.project_key ≠ "" → args.sender_name ≠ "" →
          args.«to» ≠ [] → findProject db args.project_key = some project →
          findAgent db project.id args.sender_name = none →
        tool_send_message args db now
          = .error (.valueError ("Sender agent not found: " ++ args.sender_name)))
      ∧ (∀ args db now, args.project_key ≠ "" → args.agent_name ≠ "" →
          findProject db args.project_key = none →
        tool_fetch_inbox args db now
          = .error (.valueError ("Project not found: " ++ args.project_key)))
      ∧ (∀ args db now project, args.project_key ≠ "" → args.agent_name ≠ "" →
          findProject db args.project_key = some project →
          findAgent db project.id args.agent_name = none →
        tool_fetch_inbox args db now
          = .error (.valueError ("Agent not found: " ++ args.agent_name)))
      ∧ (∀ args db now, args.project_key ≠ "" → args.agent_name ≠ "" → args.message_id ≠ 0 →
          findProject db args.project_key = none →
        tool_mark_message_read args db now
          = .error (.valueError ("Project not found: " ++ args.project_key)))
      ∧ (∀ args db now project, args.project_key ≠ "" → args.agent_name ≠ "" →
          args.message_id ≠ 0 → findProject db args.project_key = some project →
          findAgent db project.id args.agent_name = none →
        tool_mark_message_read args db now
          = .error (.valueError ("Agent not found: " ++ args.agent_name)))
      ∧ (∀ args db now, args.project_key ≠ "" → args.agent_name ≠ "" → args.message_id ≠ 0 →
          findProject db args.project_key = none →
        tool_acknowledge_message args db now
          = .error (.valueError ("Project not found: " ++ args.project_key)))
      ∧ (∀ args db now project, args.project_key ≠ "" → args.agent_name ≠ "" →
          args.message_id ≠ 0 → findProject db args.project_key = some project →
          findAgent db project.id args.agent_name = none →
        tool_acknowledge_message args db now
          = .error (.valueError ("Agent not found: " ++ args.agent_name)))
      ∧ (∀ args db now, args.project_key ≠ "" → args.thread_id ≠ "" →
          findProject db args.project_key = none →
        tool_summarize_thread args db now
          = .error (.valueError ("Project not found: " ++ args.project_key)))
      ∧ (∀ args db now, args.project_key ≠ "" → args.agent_name ≠ "" → args.paths ≠ [] →
          findProject db args.project_key = none →
        tool_file_reservation_paths args db now
          = .error (.valueError ("Project not found: " ++ args.project_key)))
      ∧ (∀ args db now project, args.project_key ≠ "" → args.agent_name ≠ "" →
          args.paths ≠ [] → findProject db args.project_key = some project →
          findAgent db project.id args.agent_name = none →
        tool_file_reservation_paths args db now
          = .error (.valueError ("Agent not found: " ++ args.agent_name)))
      ∧ (∀ args db now, args.project_key ≠ "" → args.agent_name ≠ "" →
          findProject db args.project_key = none →
        tool_release_file_reservations args db now
          = .error (.valueError ("Project not found: " ++ args.project_key)))
      ∧ (∀ args db now project, args.project_key ≠ "" → args.agent_name ≠ "" →
          findProject db args.project_key = some project →
          findAgent db project.id args.agent_name = none →
        tool_release_file_reservations args db now
          = .error (.valueError ("Agent not found: " ++ args.agent_name)))
      ∧ (∀ fts args db now, args.project_key ≠ "" → args.query ≠ "" →
          findProject db args.project_key = none →
        tool_search_messages fts args db now
          = .error (.valueError ("Project not found: " ++ args.project_key))))
    ∧ (∀ m ∈ validationMsgs, ∀ m2, isNotFoundMsg m2 →
        surfaceErr (.valueError m) ≠ surfaceErr (.valueError m2)) := by
  refine ⟨⟨?_, ?_, ?_, ?_, ?_, ?_, ?_, ?_, ?_, ?_, ?_, ?_, ?_, ?_, ?_, ?_, ?_, ?_⟩,
    ⟨?_, ?_, ?_, ?_, ?_, ?_, ?_, ?_, ?_, ?_, ?_, ?_, ?_, ?_, ?_⟩, ?_⟩
  · intro args db now h
    simp [tool_ensure_project, h]
  · intro gen fb args db now h
    simp [tool_register_agent, h]
  · intro args db now h
    simp [tool_send_message, h]
  · intro args db now h1 h2
    simp [tool_send_message, h1, h2]
  · intro args db now h1 h2 h3
    simp [tool_send_message, h1, h2, h3]
  · intro args db now h
    simp [tool_fetch_inbox, h]
  · intro args db now h1 h2
    simp [tool_fetch_inbox, h1, h2]
  · intro args db now h
    unfold tool_mark_message_read
    rw [if_pos h]
  · intro args db now h
    unfold tool_acknowledge_message
    rw [if_pos h]
  · intro args db now h
    simp [tool_summarize_thread, h]
  · intro args db now h1 h2
    simp [tool_summarize_thread, h1, h2]
  · intro args db now h
    simp [tool_file_reservation_paths, h]
  · intro args db now h1 h2
    simp [tool_file_reservation_paths, h1, h2]
  · intro args db now h1 h2 h3
    simp [tool_file_reservation_paths, h1, h2, h3]
  · intro args db now h
    simp [tool_release_file_reservations, h]
  · intro args db now h1 h2
    simp [tool_release_file_reservations, h1, h2]
  · intro fts args db now h
    simp [tool_search_messages, h]
  · intro fts args db now h1 h2
    simp [tool_search_messages, h1, h2]
  · intro gen fb args db now h1 hnone
    simp [tool_register_agent, h1, hnone]
  · intro args db now h1 h2 h3 hnone
    simp [tool_send_message, h1, h2, h3, hnone]
  · intro args db now project h1 h2 h3 hsome hnone
    simp [tool_send_message, h1, h2, h3, hsome, hnone]
  · intro args db now h1 h2 hnone
    simp [tool_fetch_inbox, h1, h2, hnone]
  · intro args db now project h1 h2 hsome hnone
    simp [tool_fetch_inbox, h1, h2, hsome, hnone]
  · intro args db now h1 h2 h3 hnone
    simp [tool_mark_message_read, h1, h2, h3, hnone]
  · intro args db now project h1 h2 h3 hsome hnone
    simp [tool_mark_message_read, h1, h2, h3, hsome, hnone]
  · intro args db now h1 h2 h3 hnone
    simp [tool_acknowledge_message, h1, h2, h3, hnone]
  · intro args db now project h1 h2 h3 hsome hnone
    simp [tool_acknowledge_message, h1, h2, h3, hsome, hnone]
  · intro args db now h1 h2 hnone
    simp [tool_summarize_thread, h1, h2, hnone]
  · intro args db now h1 h2 h3 hnone
    simp [tool_file_reservation_paths, h1, h2, h3, hnone]
  · intro args db now project h1 h2 h3 hsome hnone
    simp [tool_file_reservation_paths, h1, h2, h3, hsome, hnone]
  · intro args db now h1 h2 hnone
    simp [tool_release_file_reservations, h1, h2, hnone]
  · intro args db now project h1 h2 hsome hnone
    simp [tool_release_file_reservations, h1, h2, hsome, hnone]
  · intro fts args db now h1 h2 hnone
    simp [tool_search_messages, h1, h2, hnone]
  · intro m hm m2 hm2 heq
    have hmm : m = m2 := by
      simpa [surfaceErr, Prod.ext_iff] using heq
    exact validation_not_notfound m hm (by rw [hmm]; exact hm2)

/-- Witness for C7: a concrete missing-argument error, a concrete
unresolved-project error, and their distinctness as surfaced to the
caller. -/
theorem swarm_C7_witness :
    tool_ensure_project ⟨""⟩ mailDB 0 = .error (.valueError "human_key is required")
      ∧ tool_send_message ⟨"nope", "Bob", ["Alice"], "", "", none, "normal", false⟩ mailDB 0
        = .error (.valueError ("Project not found: " ++ "nope"))
      ∧ surfaceErr (.valueError "project_key is required")
        ≠ surfaceErr (.valueError ("Project not found: " ++ "nope")) := by
  refine ⟨?_, ?_, ?_⟩
  · exact swarm_C7_distinct_error_kinds.1.1 ⟨""⟩ mailDB 0 rfl
  · exact swarm_C7_distinct_error_kinds.2.1.2.1 _ mailDB 0 (by decide) (by decide)
      (by decide) rfl
  · exact swarm_C7_distinct_error_kinds.2.2 ("project_key is required") (by decide) _
      (Or.inl ⟨"nope", rfl⟩)

end AgentMail
